import Mathlib

/-!
Verification development for the `burncloud-database-models` repository.

The Rust source is shallowly embedded:
* machine integers (`u64`, `i64`, `u32`, `i32`) are `Nat`/`Int` with explicit
  wrap-around (`% 2^w`) at every `as` cast;
* `chrono::DateTime<Utc>` values are an abstract totally ordered time type
  (`Timestamp := Int`); the RFC3339 text codec of the external `chrono`
  library is treated as a faithful external bijection and abstracted away;
* `uuid::Uuid` is an abstract identity type with decidable equality; the
  hyphenated text codec of the external `uuid` library is abstracted away;
* JSON text columns (`tags`, `languages`, `config`) are embedded at the level
  of the JSON value they denote (inductive `Json` below).  The byte-level
  grammar of the external `serde_json` library is a faithful codec between
  JSON text and JSON values and is abstracted as the identity on `Json`;
  shape checking (`from_str::<Vec<String>>` succeeding only on an array of
  strings, `from_str::<HashMap<_,_>>` only on an object) is modelled exactly;
* `f32` values are embedded as the literal token they were parsed from
  (`F32` below): no arithmetic is ever performed on ratings in this crate,
  they are only copied verbatim or produced by `str::parse::<f32>`, whose
  success or failure is decided by the grammar acceptor `f32ParseOk`;
* stateful database code is embedded as explicit state passing over a
  `DbState` holding the `models` and `installed_models` tables; each SQL
  statement of the source is modelled by its effect on that state.
-/

/-- `chrono::DateTime<Utc>`: an abstract, totally ordered instant. -/
abbrev Timestamp := Int

/-- `uuid::Uuid`: an abstract 128-bit identity; only equality is used. -/
structure Uuid where
  val : Nat
deriving DecidableEq, Repr

/-- `serde_json::Value`: a JSON value.  Numbers carry their literal token,
which is all this crate ever does with them (copy them around). -/
inductive Json where
  | null : Json
  | bool (b : Bool) : Json
  | num (lit : String) : Json
  | str (s : String) : Json
  | arr (elems : List Json) : Json
  | obj (fields : List (String × Json)) : Json
deriving Repr

/-- An `f32` as the token it was written as; ratings are only ever copied
verbatim in this crate, never computed with. -/
structure F32 where
  lit : String
deriving DecidableEq, Repr

/-- Wrap a mathematical integer into the `i64` range (two's complement),
the semantics of Rust's `as i64` on an in-range-or-not value and of
release-mode wrapping addition. -/
def wrapI64 (x : Int) : Int :=
  (x + 2 ^ 63) % 2 ^ 64 - 2 ^ 63

/-- Rust `u64 as i64`: two's-complement reinterpretation of `n < 2^64`. -/
def u64AsI64 (n : Nat) : Int :=
  wrapI64 n

/-- Rust `i64 as u64`: two's-complement reinterpretation back to `[0, 2^64)`. -/
def i64AsU64 (x : Int) : Nat :=
  (x % 2 ^ 64).toNat

/-- `BasicModelType` of `src/models_converters.rs`. -/
inductive BasicModelType where
  | Chat | Code | Text | Embedding | Image | Audio | Video | Multimodal | Other
deriving DecidableEq, Repr

/-- `impl FromStr for BasicModelType` (`src/models_converters.rs:21-38`). -/
def BasicModelType.fromStr (s : String) : Except String BasicModelType :=
  match s with
  | "Chat" => .ok .Chat
  | "Code" => .ok .Code
  | "Text" => .ok .Text
  | "Embedding" => .ok .Embedding
  | "Image" => .ok .Image
  | "Audio" => .ok .Audio
  | "Video" => .ok .Video
  | "Multimodal" => .ok .Multimodal
  | "Other" => .ok .Other
  | _ => .error ("Invalid model type: " ++ s)

/-- `impl Display for BasicModelType` (`src/models_converters.rs:40-54`). -/
def BasicModelType.toStr : BasicModelType → String
  | .Chat => "Chat"
  | .Code => "Code"
  | .Text => "Text"
  | .Embedding => "Embedding"
  | .Image => "Image"
  | .Audio => "Audio"
  | .Video => "Video"
  | .Multimodal => "Multimodal"
  | .Other => "Other"

/-- `BasicSizeCategory` of `src/models_converters.rs`. -/
inductive BasicSizeCategory where
  | Small | Medium | Large | XLarge
deriving DecidableEq, Repr

/-- `impl Display for BasicSizeCategory` (`src/models_converters.rs:64-73`). -/
def BasicSizeCategory.toStr : BasicSizeCategory → String
  | .Small => "Small"
  | .Medium => "Medium"
  | .Large => "Large"
  | .XLarge => "XLarge"

/-- `BasicModelStatus` of `src/models_converters.rs`. -/
inductive BasicModelStatus where
  | Running | Starting | Stopping | Stopped | Error
deriving DecidableEq, Repr

/-- `impl FromStr for BasicModelStatus` (`src/models_converters.rs:84-97`). -/
def BasicModelStatus.fromStr (s : String) : Except String BasicModelStatus :=
  match s with
  | "Running" => .ok .Running
  | "Starting" => .ok .Starting
  | "Stopping" => .ok .Stopping
  | "Stopped" => .ok .Stopped
  | "Error" => .ok .Error
  | _ => .error ("Invalid model status: " ++ s)

/-- `impl Display for BasicModelStatus` (`src/models_converters.rs:99-109`). -/
def BasicModelStatus.toStr : BasicModelStatus → String
  | .Running => "Running"
  | .Starting => "Starting"
  | .Stopping => "Stopping"
  | .Stopped => "Stopped"
  | .Error => "Error"

/-- `fn file_size_to_category` (`src/models_converters.rs:282-292`);
`size_bytes : u64` becomes a `Nat` (comparisons are unsigned). -/
def file_size_to_category (size_bytes : Nat) : BasicSizeCategory :=
  if size_bytes < 3000000000 then .Small
  else if size_bytes < 10000000000 then .Medium
  else if size_bytes < 25000000000 then .Large
  else .XLarge

/-- `fn calculate_size_category` (`src/models_table.rs:157-166`).
The source computes `size_gb = file_size as f64 / 1024.0 / 1024.0 / 1024.0`
and compares it with `3.0`, `8.0`, `30.0`.  For `|file_size| < 2^53` the
`i64 → f64` conversion is exact and division by the power of two `2^30` is
exact, so `size_gb < c` holds iff `file_size < c * 2^30` over the rationals;
for `|file_size| ≥ 2^53 > 30 * 2^30` round-to-nearest keeps the magnitude
at or above `2^53 - 2^9`, so both sides of each comparison agree as well.
The function below is therefore extensionally equal to the source on every
`i64` input. -/
def calculate_size_category (file_size : Int) : String :=
  if file_size < 3 * 2 ^ 30 then "Small"
  else if file_size < 8 * 2 ^ 30 then "Medium"
  else if file_size < 30 * 2 ^ 30 then "Large"
  else "XLarge"

/-- Numeric rank of a size category, used to state monotonicity. -/
def BasicSizeCategory.rank : BasicSizeCategory → Nat
  | .Small => 0
  | .Medium => 1
  | .Large => 2
  | .XLarge => 3

/-- Numeric rank of a size-category string as produced by
`calculate_size_category` ("Small" < "Medium" < "Large" < "XLarge"). -/
def sizeStringRank (s : String) : Nat :=
  if s = "Small" then 0
  else if s = "Medium" then 1
  else if s = "Large" then 2
  else 3

/-- `struct BasicModel` (`src/models_converters.rs:112-135`).
`file_size` and `download_count` are Rust `u64`: `Nat` here, with the
`< 2^64` range invariant carried as a hypothesis where it matters. -/
structure BasicModel where
  id : Uuid
  name : String
  display_name : String
  description : Option String
  version : String
  model_type : BasicModelType
  size_category : BasicSizeCategory
  file_size : Nat
  provider : String
  license : Option String
  tags : List String
  languages : List String
  file_path : Option String
  checksum : Option String
  download_url : Option String
  config : List (String × Json)
  rating : Option F32
  download_count : Nat
  is_official : Bool
  created_at : Timestamp
  updated_at : Timestamp
deriving Repr

/-- `struct ModelsTable` (`src/models_table.rs:8-52`).  The `tags`,
`languages` and `config` columns hold JSON text; they are embedded as the
`Json` value that text denotes (see the header comment). -/
structure ModelsTable where
  id : Uuid
  name : String
  display_name : String
  description : Option String
  version : String
  model_type : String
  size_category : String
  file_size : Int
  provider : String
  license : Option String
  tags : Json
  languages : Json
  file_path : Option String
  checksum : Option String
  download_url : Option String
  config : Json
  rating : Option F32
  download_count : Int
  is_official : Bool
  created_at : Timestamp
  updated_at : Timestamp
deriving Repr

/-- `struct InstalledModelsTable` (`src/models_table.rs:56-80`). -/
structure InstalledModelsTable where
  id : Uuid
  model_id : Uuid
  install_path : String
  installed_at : Timestamp
  status : String
  port : Option Int
  process_id : Option Int
  last_used : Option Timestamp
  usage_count : Int
  created_at : Timestamp
  updated_at : Timestamp
deriving Repr

/-- `struct BasicInstalledModel` (`src/models_converters.rs:138-151`). -/
structure BasicInstalledModel where
  id : Uuid
  model : BasicModel
  install_path : String
  installed_at : Timestamp
  status : BasicModelStatus
  port : Option Nat
  process_id : Option Nat
  last_used : Option Timestamp
  usage_count : Nat
  created_at : Timestamp
  updated_at : Timestamp
deriving Repr

/-- `serde_json::to_string(&Vec<String>)` at the JSON-value level: a
`Vec<String>` serializes to the array of its strings, in order. -/
def encodeStringList (l : List String) : Json :=
  .arr (l.map .str)

/-- `serde_json::from_str::<Vec<String>>` at the JSON-value level: succeeds
exactly on an array whose elements are all strings, in order. -/
def decodeStringList : Json → Except String (List String)
  | .arr elems =>
    elems.foldr
      (fun j acc =>
        match j with
        | .str s => acc.map (s :: ·)
        | _ => .error "invalid type: expected a string")
      (.ok [])
  | _ => .error "invalid type: expected a sequence"

/-- `serde_json::to_string(&HashMap<String, Value>)` at the JSON-value
level: the map serializes to the object of its entries. -/
def encodeConfig (m : List (String × Json)) : Json :=
  .obj m

/-- Insert into an association list with `HashMap` semantics: replace in
place when the key is present, append otherwise. -/
def assocInsert (acc : List (String × Json)) (kv : String × Json) : List (String × Json) :=
  match acc with
  | [] => [kv]
  | (k, v) :: rest =>
    if k = kv.1 then (k, kv.2) :: rest else (k, v) :: assocInsert rest kv

/-- `serde_json::from_str::<HashMap<String, Value>>` at the JSON-value
level: succeeds exactly on an object; duplicate keys collapse, the last
occurrence winning, as in `HashMap` deserialization. -/
def decodeConfig : Json → Except String (List (String × Json))
  | .obj fields => .ok (fields.foldl assocInsert [])
  | _ => .error "invalid type: expected a map"

/-- `impl TryFrom<BasicModel> for ModelsTable` (`src/models_converters.rs:154-185`),
the Domain→Row converter.  At the JSON-value level the three `serde_json::to_string`
calls of the source are total, so the `?`-propagated serialization failures
cannot arise and the result is always `ok` of this record. -/
def modelsTableOfBasic (basic_model : BasicModel) : ModelsTable :=
  { id := basic_model.id
    name := basic_model.name
    display_name := basic_model.display_name
    description := basic_model.description
    version := basic_model.version
    model_type := basic_model.model_type.toStr
    size_category := basic_model.size_category.toStr
    file_size := u64AsI64 basic_model.file_size
    provider := basic_model.provider
    license := basic_model.license
    tags := encodeStringList basic_model.tags
    languages := encodeStringList basic_model.languages
    file_path := basic_model.file_path
    checksum := basic_model.checksum
    download_url := basic_model.download_url
    config := encodeConfig basic_model.config
    rating := basic_model.rating
    download_count := u64AsI64 basic_model.download_count
    is_official := basic_model.is_official
    created_at := basic_model.created_at
    updated_at := basic_model.updated_at }

/-- `impl TryFrom<BasicModel> for ModelsTable`, with the source's
`Result` shape. -/
def basicModelToModelsTable (basic_model : BasicModel) : Except String ModelsTable :=
  .ok (modelsTableOfBasic basic_model)

/-- The inline `match db_model.size_category.as_str()` of
`src/models_converters.rs:204-210`, named for reuse in statements. -/
def parseSizeCategory (s : String) : Except String BasicSizeCategory :=
  match s with
  | "Small" => .ok .Small
  | "Medium" => .ok .Medium
  | "Large" => .ok .Large
  | "XLarge" => .ok .XLarge
  | _ => .error ("Invalid size category: " ++ s)

/-- `impl TryFrom<ModelsTable> for BasicModel` (`src/models_converters.rs:188-236`),
the Row→Domain converter, including the source's error wrapping and its
evaluation order (tags, languages, config, model_type, size_category). -/
def modelsTableToBasicModel (db_model : ModelsTable) : Except String BasicModel := do
  let tags ← (decodeStringList db_model.tags).mapError
    (fun e => "Failed to parse tags: " ++ e)
  let languages ← (decodeStringList db_model.languages).mapError
    (fun e => "Failed to parse languages: " ++ e)
  let config ← (decodeConfig db_model.config).mapError
    (fun e => "Failed to parse config: " ++ e)
  let model_type ← (BasicModelType.fromStr db_model.model_type).mapError
    (fun e => "Invalid model type: " ++ e)
  let size_category ← parseSizeCategory db_model.size_category
  Except.ok
    { id := db_model.id
      name := db_model.name
      display_name := db_model.display_name
      description := db_model.description
      version := db_model.version
      model_type := model_type
      size_category := size_category
      file_size := i64AsU64 db_model.file_size
      provider := db_model.provider
      license := db_model.license
      tags := tags
      languages := languages
      file_path := db_model.file_path
      checksum := db_model.checksum
      download_url := db_model.download_url
      config := config
      rating := db_model.rating
      download_count := i64AsU64 db_model.download_count
      is_official := db_model.is_official
      created_at := db_model.created_at
      updated_at := db_model.updated_at }

/-- `fn db_to_basic_installed_model` (`src/models_converters.rs:260-279`);
`u32` casts of `port`/`process_id` are `i32 as u32` reinterpretations. -/
def db_to_basic_installed_model
    (db_model : ModelsTable) (db_installed : InstalledModelsTable) :
    Except String BasicInstalledModel := do
  let basic_model ← modelsTableToBasicModel db_model
  let status ← (BasicModelStatus.fromStr db_installed.status).mapError
    (fun e => "Invalid model status: " ++ e)
  Except.ok
    { id := db_installed.id
      model := basic_model
      install_path := db_installed.install_path
      installed_at := db_installed.installed_at
      status := status
      port := db_installed.port.map (fun p => ((p % 2 ^ 32).toNat))
      process_id := db_installed.process_id.map (fun p => ((p % 2 ^ 32).toNat))
      last_used := db_installed.last_used
      usage_count := i64AsU64 db_installed.usage_count
      created_at := db_installed.created_at
      updated_at := db_installed.updated_at }

/-- Rust `u32 as i32`: two's-complement reinterpretation of `n < 2^32`. -/
def u32AsI32 (n : Nat) : Int :=
  (n + 2 ^ 31) % 2 ^ 32 - 2 ^ 31

/-- `impl TryFrom<BasicInstalledModel> for InstalledModelsTable`
(`src/models_converters.rs:239-256`): always `Ok`, fields mapped directly,
`port`/`process_id` narrowed by `as i32`. -/
def installedTableOfBasic (basic_installed : BasicInstalledModel) : InstalledModelsTable :=
  { id := basic_installed.id
    model_id := basic_installed.model.id
    install_path := basic_installed.install_path
    installed_at := basic_installed.installed_at
    status := basic_installed.status.toStr
    port := basic_installed.port.map u32AsI32
    process_id := basic_installed.process_id.map u32AsI32
    last_used := basic_installed.last_used
    usage_count := u64AsI64 basic_installed.usage_count
    created_at := basic_installed.created_at
    updated_at := basic_installed.updated_at }

/-- `InstalledModelsTable::new` (`src/models_table.rs:126-141`).  The source
draws one fresh UUID (`Uuid::new_v4()`) and reads the clock once
(`let now = Utc::now()`); those two effects are the `id` and `now`
parameters.  The caller supplies only `model_id` and `install_path`. -/
def InstalledModelsTable.new (id : Uuid) (now : Timestamp)
    (model_id : Uuid) (install_path : String) : InstalledModelsTable :=
  { id := id
    model_id := model_id
    install_path := install_path
    installed_at := now
    status := "Stopped"
    port := none
    process_id := none
    last_used := none
    usage_count := 0
    created_at := now
    updated_at := now }

/-- `InstalledModelsTable::mark_used` (`src/models_table.rs:143-148`).
The source reads the clock twice (`Some(Utc::now())` for `last_used`, then
`Utc::now()` for `updated_at`); those reads are the `t1`, `t2` parameters.
`self.usage_count += 1` on an `i64` wraps at `i64::MAX` in release builds
(and panics in debug builds); the wrapping semantics is used here. -/
def InstalledModelsTable.mark_used (im : InstalledModelsTable)
    (t1 t2 : Timestamp) : InstalledModelsTable :=
  { im with
    last_used := some t1
    usage_count := wrapI64 (im.usage_count + 1)
    updated_at := t2 }

/-- `InstalledModelsTable::update_status` (`src/models_table.rs:151-154`). -/
def InstalledModelsTable.update_status (im : InstalledModelsTable)
    (status : String) (now : Timestamp) : InstalledModelsTable :=
  { im with status := status, updated_at := now }

/-- The database state: the `models` and `installed_models` tables, rows in
insertion order.  The SQL engine behind `ModelsRepository` is the spec's
black-box row store (§1, §6); each repository method below models the effect
of its single SQL statement on this state. -/
structure DbState where
  models : List ModelsTable
  installed : List InstalledModelsTable
deriving Repr

/-- `SELECT * FROM models WHERE name = $1` (`get_model_by_name`,
`src/models_repository.rs:91-103`): first row with that name, `None` when
absent. -/
def DbState.getModelByName (s : DbState) (name : String) : Option ModelsTable :=
  s.models.find? (fun r => r.name == name)

/-- `SELECT * FROM models WHERE id = $1` (`get_model_by_id`,
`src/models_repository.rs:76-88`). -/
def DbState.getModelById (s : DbState) (id : Uuid) : Option ModelsTable :=
  s.models.find? (fun r => r.id == id)

/-- `SELECT * FROM installed_models WHERE model_id = $1`
(the repository's installed-record lookup used by every service guard). -/
def DbState.getInstalledByModelId (s : DbState) (model_id : Uuid) :
    Option InstalledModelsTable :=
  s.installed.find? (fun r => r.model_id == model_id)

/-- `INSERT INTO models (...) VALUES (...)` (`create_model`,
`src/models_repository.rs:35-73`): append the row. -/
def DbState.insertModel (s : DbState) (m : ModelsTable) : DbState :=
  { s with models := s.models ++ [m] }

/-- `DELETE FROM models WHERE id = $1` (`delete_model`,
`src/models_repository.rs:159-167`): remove the row, report
`rows_affected() > 0`. -/
def DbState.deleteModel (s : DbState) (id : Uuid) : Bool × DbState :=
  (s.models.any (fun r => r.id == id),
   { s with models := s.models.filter (fun r => !(r.id == id)) })

/-- `INSERT INTO installed_models (...) VALUES (...)`: append the record. -/
def DbState.insertInstalled (s : DbState) (im : InstalledModelsTable) : DbState :=
  { s with installed := s.installed ++ [im] }

/-- `DELETE FROM installed_models WHERE model_id = $1` (the repository's
`uninstall_model`): remove the installation record. -/
def DbState.removeInstalled (s : DbState) (model_id : Uuid) : DbState :=
  { s with installed := s.installed.filter (fun r => !(r.model_id == model_id)) }

/-- `ModelsRepository::install_model` (`src/models_repository.rs:197-224`):
build a fresh record with `InstalledModelsTable::new` — the caller supplies
only `model_id` and `install_path`; `uuid`/`now` are the constructor's RNG
and clock reads — and insert it. -/
def ModelsRepository.install_model (s : DbState) (uuid : Uuid) (now : Timestamp)
    (model_id : Uuid) (install_path : String) : InstalledModelsTable × DbState :=
  let installed_model := InstalledModelsTable.new uuid now model_id install_path
  (installed_model, s.insertInstalled installed_model)

/-- `ModelsServiceError` (`src/models_service.rs:308-330`). -/
inductive ModelsServiceError where
  | DatabaseError (msg : String)
  | ConversionError (msg : String)
  | ModelNotFound (id : Uuid)
  | ModelAlreadyExists (name : String)
  | ModelAlreadyInstalled (id : Uuid)
  | ModelNotInstalled (id : Uuid)
  | ModelHasInstalledInstances (id : Uuid)
deriving DecidableEq, Repr

/-- `ModelsService::create_model` (`src/models_service.rs:67-76`): error
`ModelAlreadyExists` when `get_model_by_name` finds a row, else convert and
insert.  Modelled from the spec where the source leaves the repository
backend and the `service_model_to_db` converter outside `src/`: the Domain→Row
converter is the in-src `TryFrom<BasicModel> for ModelsTable` mapping
(`modelsTableOfBasic`), which the spec's §4.2 describes, and the repository
is the table state above per §4.3. -/
def ModelsService.create_model (s : DbState) (model : BasicModel) :
    Except ModelsServiceError Unit × DbState :=
  match s.getModelByName model.name with
  | some _ => (.error (.ModelAlreadyExists model.name), s)
  | none => (.ok (), s.insertModel (modelsTableOfBasic model))

/-- `ModelsService::delete_model` (`src/models_service.rs:92-105`): error
`ModelHasInstalledInstances` when an installation record references the id;
then `ModelNotFound` when the model is absent; else delete. -/
def ModelsService.delete_model (s : DbState) (id : Uuid) :
    Except ModelsServiceError Unit × DbState :=
  match s.getInstalledByModelId id with
  | some _ => (.error (.ModelHasInstalledInstances id), s)
  | none =>
    match s.getModelById id with
    | none => (.error (.ModelNotFound id), s)
    | some _ => (.ok (), (s.deleteModel id).2)

/-- `ModelsService::install_model` (`src/models_service.rs:211-225`): error
`ModelNotFound` when the model is absent, `ModelAlreadyInstalled` when an
installation record already exists, else convert and insert the record. -/
def ModelsService.install_model (s : DbState) (installed_model : BasicInstalledModel) :
    Except ModelsServiceError Unit × DbState :=
  match s.getModelById installed_model.model.id with
  | none => (.error (.ModelNotFound installed_model.model.id), s)
  | some _ =>
    match s.getInstalledByModelId installed_model.model.id with
    | some _ => (.error (.ModelAlreadyInstalled installed_model.model.id), s)
    | none => (.ok (), s.insertInstalled (installedTableOfBasic installed_model))

/-- `ModelsService::uninstall_model` (`src/models_service.rs:241-249`): error
`ModelNotInstalled` when no installation record exists, else delete it. -/
def ModelsService.uninstall_model (s : DbState) (model_id : Uuid) :
    Except ModelsServiceError Unit × DbState :=
  match s.getInstalledByModelId model_id with
  | none => (.error (.ModelNotInstalled model_id), s)
  | some _ => (.ok (), s.removeInstalled model_id)

/-- `Sign? Count` with nonempty `Count` and nothing after — the exponent
digits of the Rust float grammar. -/
def signedCountOk (cs : List Char) : Bool :=
  let cs' := match cs with
    | '+' :: rest => rest
    | '-' :: rest => rest
    | rest => rest
  !cs'.isEmpty && cs'.all Char.isDigit

/-- `Exp?` of the Rust float grammar: empty, or `('e'|'E') Sign? Count`. -/
def expPartOk (cs : List Char) : Bool :=
  match cs with
  | [] => true
  | c :: rest => (c == 'e' || c == 'E') && signedCountOk rest

/-- `Number ::= Count '.'? Count? Exp? | '.' Count Exp?` of the Rust float
grammar. -/
def numberPartOk (cs : List Char) : Bool :=
  let (d1, r1) := cs.span Char.isDigit
  if !d1.isEmpty then
    match r1 with
    | '.' :: r2 => expPartOk (r2.span Char.isDigit).2
    | r2 => expPartOk r2
  else
    match cs with
    | '.' :: r2 =>
      let (d2, r3) := r2.span Char.isDigit
      !d2.isEmpty && expPartOk r3
    | _ => false

/-- The grammar of Rust's `str::parse::<f32>`
(`Float ::= Sign? ('inf' | 'infinity' | 'nan' | Number)`, keywords
case-insensitive): decides whether parsing succeeds. -/
def f32ParseOk (s : String) : Bool :=
  let cs := match s.data with
    | '+' :: rest => rest
    | '-' :: rest => rest
    | rest => rest
  let low := cs.map Char.toLower
  low == "inf".data || low == "infinity".data || low == "nan".data
    || numberPartOk cs

/-- `s.parse::<f32>().ok()`: `Some` exactly when the token is in the float
grammar; the value is the token itself under the `F32` token model. -/
def parseF32 (s : String) : Option F32 :=
  if f32ParseOk s then some ⟨s⟩ else none

/-- One fetched `sqlx::sqlite::SqliteRow` over the `models` /
`installed_models` column set: each field is `some` of the stored value when
`try_get` succeeds for that column and `none` when it fails (missing column
or type mismatch).  Text-typed columns hold `String`; integer-typed columns
hold `Int`; JSON-text, UUID-text and RFC3339-text columns hold the value
their text denotes, their external codecs being abstracted (header
comment). -/
structure SqliteRow where
  id : Option Uuid
  name : Option String
  display_name : Option String
  description : Option String
  version : Option String
  model_type : Option String
  size_category : Option String
  file_size : Option Int
  provider : Option String
  license : Option String
  tags : Option Json
  languages : Option Json
  file_path : Option String
  checksum : Option String
  download_url : Option String
  config : Option Json
  rating : Option String
  download_count : Option Int
  is_official : Option String
  created_at : Option Timestamp
  updated_at : Option Timestamp
deriving Repr

/-- `DatabaseError` of `burncloud_database_core` as used by the repository:
only the `InvalidData { message }` variant is constructed here. -/
inductive DatabaseError where
  | InvalidData (message : String)
deriving DecidableEq, Repr

/-- `ModelsRepository::row_to_models_table` (`src/models_repository.rs:316-386`):
mandatory columns (`id`, `file_size`, `created_at`, `updated_at`) raise
`InvalidData` when unreadable; `download_count` defaults to 0; `rating` is
read as text, empty mapping to `None`, otherwise `parse::<f32>().ok()`;
`is_official` compares the text with `"true"`/`"1"`; optional text columns
(`description`, `license`, `file_path`, `checksum`, `download_url`) are
`.filter(|s| !s.is_empty())`; the remaining text columns default to `""`,
`tags`/`languages` to `[]` and `config` to `{}`. -/
def row_to_models_table (row : SqliteRow) : Except DatabaseError ModelsTable := do
  let id ← match row.id with
    | some v => Except.ok v
    | none => Except.error (.InvalidData "Invalid id: column unreadable")
  let file_size ← match row.file_size with
    | some v => Except.ok v
    | none => Except.error (.InvalidData "Invalid file_size: column unreadable")
  let download_count := row.download_count.getD 0
  let rating := row.rating.bind (fun s => if s.isEmpty then none else parseF32 s)
  let is_official_str := row.is_official.getD "false"
  let is_official := is_official_str == "true" || is_official_str == "1"
  let created_at ← match row.created_at with
    | some v => Except.ok v
    | none => Except.error (.InvalidData "Invalid created_at: column unreadable")
  let updated_at ← match row.updated_at with
    | some v => Except.ok v
    | none => Except.error (.InvalidData "Invalid updated_at: column unreadable")
  Except.ok
    { id := id
      name := row.name.getD ""
      display_name := row.display_name.getD ""
      description := row.description.bind (fun s => if s.isEmpty then none else some s)
      version := row.version.getD ""
      model_type := row.model_type.getD ""
      size_category := row.size_category.getD ""
      file_size := file_size
      provider := row.provider.getD ""
      license := row.license.bind (fun s => if s.isEmpty then none else some s)
      tags := row.tags.getD (.arr [])
      languages := row.languages.getD (.arr [])
      file_path := row.file_path.bind (fun s => if s.isEmpty then none else some s)
      checksum := row.checksum.bind (fun s => if s.isEmpty then none else some s)
      download_url := row.download_url.bind (fun s => if s.isEmpty then none else some s)
      config := row.config.getD (.obj [])
      rating := rating
      download_count := download_count
      is_official := is_official
      created_at := created_at
      updated_at := updated_at }

/-- Try a test on every suffix of the text, the semantics of a leading `%`
wildcard. -/
def starScan (f : List Char → Bool) : List Char → Bool
  | [] => f []
  | t :: ts' => f (t :: ts') || starScan f ts'

/-- SQLite `LIKE` on characters: `%` matches any sequence (the rest of the
pattern is retried at every suffix), `_` any single character, everything
else its ASCII-case-insensitive self. -/
def likeMatch : List Char → List Char → Bool
  | [], ts => ts.isEmpty
  | p :: ps, ts =>
    if p = '%' then
      starScan (likeMatch ps) ts
    else
      match ts with
      | [] => false
      | t :: ts' =>
        if p = '_' then likeMatch ps ts'
        else (p.toLower == t.toLower) && likeMatch ps ts'

/-- `text LIKE pattern` for SQLite's default (ASCII-case-insensitive)
collation. -/
def sqlLike (pattern text : String) : Bool :=
  likeMatch pattern.data text.data

/-- The `ORDER BY created_at DESC` relation. -/
def createdDesc (a b : ModelsTable) : Prop :=
  b.created_at ≤ a.created_at

instance : DecidableRel createdDesc := fun a b =>
  inferInstanceAs (Decidable (b.created_at ≤ a.created_at))

/-- `ModelsRepository::search_models` (`src/models_repository.rs:247-267`):
`SELECT * FROM models WHERE name LIKE $1 OR display_name LIKE $1 OR
description LIKE $1 ORDER BY created_at DESC LIMIT $2` with
`$1 = %query%` and `$2 = limit.unwrap_or(50)`.  A NULL `description` is the
stored empty string (the writer binds `unwrap_or_default()`). -/
def ModelsRepository.search_models (s : DbState) (query : String)
    (limit : Option Nat) : List ModelsTable :=
  let search_pattern := "%" ++ query ++ "%"
  let matched := s.models.filter (fun r =>
    sqlLike search_pattern r.name ||
    sqlLike search_pattern r.display_name ||
    sqlLike search_pattern (r.description.getD ""))
  (List.insertionSort createdDesc matched).take (limit.getD 50)

/-- C2: the size-bucketing functions (`file_size_to_category` of
`src/models_converters.rs` and `calculate_size_category` of
`src/models_table.rs`) are monotonic non-decreasing in the file size, and
at the documented points they return Small, Medium, Large, XLarge
respectively. -/
theorem size_bucketing_monotone_and_breakpoints :
    (∀ a b : Nat, a ≤ b →
      (file_size_to_category a).rank ≤ (file_size_to_category b).rank)
    ∧ file_size_to_category 1000000000 = .Small
    ∧ file_size_to_category 5000000000 = .Medium
    ∧ file_size_to_category 15000000000 = .Large
    ∧ file_size_to_category 50000000000 = .XLarge
    ∧ (∀ a b : Int, a ≤ b →
      sizeStringRank (calculate_size_category a) ≤ sizeStringRank (calculate_size_category b))
    ∧ calculate_size_category 1000000000 = "Small"
    ∧ calculate_size_category 5000000000 = "Medium"
    ∧ calculate_size_category 15000000000 = "Large"
    ∧ calculate_size_category 50000000000 = "XLarge" := by
  refine ⟨?_, by decide, by decide, by decide, by decide, ?_, by decide, by decide, by decide, by decide⟩
  · intro a b h
    unfold file_size_to_category
    split_ifs <;> first | decide | (exfalso; omega)
  · intro a b h
    unfold calculate_size_category
    split_ifs <;> first | decide | (exfalso; omega)

/-- C2 witness: monotonicity applied at 1GB ≤ 5GB for both bucketing
functions. -/
theorem size_bucketing_monotone_and_breakpoints_witness :
    (file_size_to_category 1000000000).rank ≤ (file_size_to_category 5000000000).rank
    ∧ sizeStringRank (calculate_size_category 1000000000)
        ≤ sizeStringRank (calculate_size_category 5000000000) :=
  ⟨size_bucketing_monotone_and_breakpoints.1 1000000000 5000000000 (by norm_num),
   (size_bucketing_monotone_and_breakpoints.2.2.2.2.2.1) 1000000000 5000000000 (by norm_num)⟩

/-- C9: for every `model_id` and `install_path`, the repository
`install_model` inserts a freshly constructed record whose status is
"Stopped", whose `port`, `process_id` and `last_used` are `None`, whose
`usage_count` is 0, and whose `installed_at`, `created_at` and `updated_at`
all equal the single clock read; the caller supplies only `model_id` and
`install_path` (the `uuid`/`now` parameters are the constructor's own RNG
and clock effects, not caller inputs). -/
theorem repository_install_model_fresh_record
    (s : DbState) (uuid : Uuid) (now : Timestamp) (model_id : Uuid) (install_path : String) :
    (ModelsRepository.install_model s uuid now model_id install_path).1.status = "Stopped"
    ∧ (ModelsRepository.install_model s uuid now model_id install_path).1.port = none
    ∧ (ModelsRepository.install_model s uuid now model_id install_path).1.process_id = none
    ∧ (ModelsRepository.install_model s uuid now model_id install_path).1.last_used = none
    ∧ (ModelsRepository.install_model s uuid now model_id install_path).1.usage_count = 0
    ∧ (ModelsRepository.install_model s uuid now model_id install_path).1.installed_at = now
    ∧ (ModelsRepository.install_model s uuid now model_id install_path).1.created_at = now
    ∧ (ModelsRepository.install_model s uuid now model_id install_path).1.updated_at = now
    ∧ (ModelsRepository.install_model s uuid now model_id install_path).1.model_id = model_id
    ∧ (ModelsRepository.install_model s uuid now model_id install_path).1.install_path = install_path
    ∧ (ModelsRepository.install_model s uuid now model_id install_path).2.installed
        = s.installed ++ [(ModelsRepository.install_model s uuid now model_id install_path).1]
    ∧ (ModelsRepository.install_model s uuid now model_id install_path).2.models = s.models :=
  ⟨rfl, rfl, rfl, rfl, rfl, rfl, rfl, rfl, rfl, rfl, rfl, rfl⟩

/-- A concrete installation record whose `usage_count` sits at `i64::MAX`. -/
def imAtMaxUsage : InstalledModelsTable :=
  { id := ⟨1⟩
    model_id := ⟨2⟩
    install_path := "/models/m"
    installed_at := 0
    status := "Stopped"
    port := none
    process_id := none
    last_used := none
    usage_count := 2 ^ 63 - 1
    created_at := 0
    updated_at := 0 }

/-- C10 counterexample: at `usage_count = i64::MAX` the wrapping `+= 1` of
`mark_used` does not increment the counter by 1 (it wraps to `i64::MIN`),
so the claim does not hold for every `InstalledModelsTable` value. -/
theorem mark_used_overflow_counterexample :
    (imAtMaxUsage.mark_used 0 0).usage_count ≠ imAtMaxUsage.usage_count + 1
    ∧ (imAtMaxUsage.mark_used 0 0).usage_count = -(2 ^ 63) := by
  refine ⟨?_, by decide⟩
  intro h
  exact absurd h (by decide)

/-- C10 (amended): for every `InstalledModelsTable` whose `usage_count` is
in the `i64` range and strictly below `i64::MAX`, `mark_used` increments
`usage_count` by exactly 1, sets `last_used` to `Some` of the (first) clock
read and `updated_at` to the (second) clock read, and leaves `id`,
`model_id`, `install_path`, `installed_at`, `status`, `port`, `process_id`
and `created_at` unchanged. -/
theorem mark_used_increments_and_frames
    (im : InstalledModelsTable) (t1 t2 : Timestamp)
    (hlo : -(2 ^ 63) ≤ im.usage_count) (hhi : im.usage_count < 2 ^ 63 - 1) :
    (im.mark_used t1 t2).usage_count = im.usage_count + 1
    ∧ (im.mark_used t1 t2).last_used = some t1
    ∧ (im.mark_used t1 t2).updated_at = t2
    ∧ (im.mark_used t1 t2).id = im.id
    ∧ (im.mark_used t1 t2).model_id = im.model_id
    ∧ (im.mark_used t1 t2).install_path = im.install_path
    ∧ (im.mark_used t1 t2).installed_at = im.installed_at
    ∧ (im.mark_used t1 t2).status = im.status
    ∧ (im.mark_used t1 t2).port = im.port
    ∧ (im.mark_used t1 t2).process_id = im.process_id
    ∧ (im.mark_used t1 t2).created_at = im.created_at := by
  refine ⟨?_, rfl, rfl, rfl, rfl, rfl, rfl, rfl, rfl, rfl, rfl⟩
  show wrapI64 (im.usage_count + 1) = im.usage_count + 1
  unfold wrapI64
  omega

/-- C10 witness: the amended theorem applied to a concrete record with
`usage_count = 41`. -/
theorem mark_used_increments_and_frames_witness :
    (InstalledModelsTable.mark_used
      { id := ⟨1⟩, model_id := ⟨2⟩, install_path := "/m", installed_at := 0,
        status := "Running", port := some 80, process_id := some 7,
        last_used := none, usage_count := 41, created_at := 0, updated_at := 0 }
      5 6).usage_count = 42
    ∧ (InstalledModelsTable.mark_used
      { id := ⟨1⟩, model_id := ⟨2⟩, install_path := "/m", installed_at := 0,
        status := "Running", port := some 80, process_id := some 7,
        last_used := none, usage_count := 41, created_at := 0, updated_at := 0 }
      5 6).last_used = some 5 := by
  have h := mark_used_increments_and_frames
    { id := ⟨1⟩, model_id := ⟨2⟩, install_path := "/m", installed_at := 0,
      status := "Running", port := some 80, process_id := some 7,
      last_used := none, usage_count := 41, created_at := 0, updated_at := 0 }
    5 6 (by decide) (by decide)
  exact ⟨h.1, h.2.1⟩

/-- A concrete domain model used by the closed witnesses. -/
def sampleBasicModel : BasicModel :=
  { id := ⟨1⟩
    name := "llama-chat"
    display_name := "Llama Chat"
    description := some "a chat model"
    version := "1.0.0"
    model_type := .Chat
    size_category := .Small
    file_size := 1000000000
    provider := "meta"
    license := some "MIT"
    tags := ["ai", "chat"]
    languages := ["en", "zh"]
    file_path := some "/path/to/model"
    checksum := some "abc123"
    download_url := none
    config := [("temperature", Json.num "0.7")]
    rating := some ⟨"4.5"⟩
    download_count := 100
    is_official := true
    created_at := 10
    updated_at := 10 }

/-- The row stored for `sampleBasicModel`. -/
def sampleModelRow : ModelsTable := modelsTableOfBasic sampleBasicModel

/-- A concrete domain installation record for `sampleBasicModel`. -/
def sampleInstalled : BasicInstalledModel :=
  { id := ⟨9⟩
    model := sampleBasicModel
    install_path := "/opt/models/llama"
    installed_at := 3
    status := .Stopped
    port := none
    process_id := none
    last_used := none
    usage_count := 0
    created_at := 3
    updated_at := 3 }

/-- C4: creating a model twice with the same name — the first call succeeds
and inserts the converted row; the second call fails with
`ModelAlreadyExists` and leaves the state unchanged (no second row). -/
theorem create_model_duplicate_fails (s : DbState) (m1 m2 : BasicModel)
    (hname : m2.name = m1.name)
    (habsent : s.getModelByName m1.name = none) :
    (ModelsService.create_model s m1).1 = .ok ()
    ∧ (ModelsService.create_model (ModelsService.create_model s m1).2 m2).1
        = .error (.ModelAlreadyExists m2.name)
    ∧ (ModelsService.create_model (ModelsService.create_model s m1).2 m2).2
        = (ModelsService.create_model s m1).2 := by
  have habsent' : s.models.find? (fun r => r.name == m1.name) = none := habsent
  have hstep : ModelsService.create_model s m1
      = (.ok (), s.insertModel (modelsTableOfBasic m1)) := by
    unfold ModelsService.create_model
    rw [show s.getModelByName m1.name = none from habsent]
  have hfound : (s.insertModel (modelsTableOfBasic m1)).getModelByName m2.name
      = some (modelsTableOfBasic m1) := by
    show (s.models ++ [modelsTableOfBasic m1]).find? (fun r => r.name == m2.name)
        = some (modelsTableOfBasic m1)
    rw [hname, List.find?_append, habsent']
    simp [modelsTableOfBasic]
  have hstep2 : ModelsService.create_model (s.insertModel (modelsTableOfBasic m1)) m2
      = (.error (.ModelAlreadyExists m2.name), s.insertModel (modelsTableOfBasic m1)) := by
    unfold ModelsService.create_model
    rw [hfound]
  rw [hstep]
  exact ⟨rfl, by rw [hstep2], by rw [hstep2]⟩

/-- C4 witness: the duplicate-creation theorem applied to a concrete model
on the empty database. -/
theorem create_model_duplicate_fails_witness :
    (ModelsService.create_model ⟨[], []⟩ sampleBasicModel).1 = .ok ()
    ∧ (ModelsService.create_model
        (ModelsService.create_model ⟨[], []⟩ sampleBasicModel).2 sampleBasicModel).1
        = .error (.ModelAlreadyExists "llama-chat") := by
  have h := create_model_duplicate_fails ⟨[], []⟩ sampleBasicModel sampleBasicModel rfl rfl
  exact ⟨h.1, h.2.1⟩

/-- C5: `install_model` succeeds (inserting the converted record) on a model
that exists and is not installed; fails with `ModelAlreadyInstalled` when an
installation record for the model already exists; fails with
`ModelNotFound` when the model is absent; and `uninstall_model` on a model
with no installation record fails with `ModelNotInstalled`. -/
theorem install_and_uninstall_guards (s : DbState) (bim : BasicInstalledModel) (mid : Uuid) :
    ((∃ m, s.getModelById bim.model.id = some m) →
      s.getInstalledByModelId bim.model.id = none →
      ModelsService.install_model s bim
        = (.ok (), s.insertInstalled (installedTableOfBasic bim)))
    ∧ ((∃ m, s.getModelById bim.model.id = some m) →
      (∃ im, s.getInstalledByModelId bim.model.id = some im) →
      ModelsService.install_model s bim
        = (.error (.ModelAlreadyInstalled bim.model.id), s))
    ∧ (s.getModelById bim.model.id = none →
      ModelsService.install_model s bim
        = (.error (.ModelNotFound bim.model.id), s))
    ∧ (s.getInstalledByModelId mid = none →
      ModelsService.uninstall_model s mid
        = (.error (.ModelNotInstalled mid), s)) := by
  refine ⟨?_, ?_, ?_, ?_⟩
  · rintro ⟨m, hm⟩ hnone
    unfold ModelsService.install_model
    rw [hm, hnone]
  · rintro ⟨m, hm⟩ ⟨im, him⟩
    unfold ModelsService.install_model
    rw [hm, him]
  · intro hnone
    unfold ModelsService.install_model
    rw [hnone]
  · intro hnone
    unfold ModelsService.uninstall_model
    rw [hnone]

/-- C5 witness: the guard theorem applied to concrete states — a database
holding the sample model (installation succeeds; a second installation is
`ModelAlreadyInstalled`), the empty database (`ModelNotFound`), and an
uninstall with no record (`ModelNotInstalled`). -/
theorem install_and_uninstall_guards_witness :
    ModelsService.install_model ⟨[sampleModelRow], []⟩ sampleInstalled
      = (.ok (), ⟨[sampleModelRow], [installedTableOfBasic sampleInstalled]⟩)
    ∧ ModelsService.install_model
        ⟨[sampleModelRow], [installedTableOfBasic sampleInstalled]⟩ sampleInstalled
      = (.error (.ModelAlreadyInstalled ⟨1⟩),
         ⟨[sampleModelRow], [installedTableOfBasic sampleInstalled]⟩)
    ∧ ModelsService.install_model ⟨[], []⟩ sampleInstalled
      = (.error (.ModelNotFound ⟨1⟩), ⟨[], []⟩)
    ∧ ModelsService.uninstall_model ⟨[sampleModelRow], []⟩ ⟨1⟩
      = (.error (.ModelNotInstalled ⟨1⟩), ⟨[sampleModelRow], []⟩) := by
  refine ⟨?_, ?_, ?_, ?_⟩
  · exact (install_and_uninstall_guards ⟨[sampleModelRow], []⟩ sampleInstalled ⟨1⟩).1
      ⟨sampleModelRow, rfl⟩ rfl
  · exact (install_and_uninstall_guards
        ⟨[sampleModelRow], [installedTableOfBasic sampleInstalled]⟩ sampleInstalled ⟨1⟩).2.1
      ⟨sampleModelRow, rfl⟩ ⟨installedTableOfBasic sampleInstalled, rfl⟩
  · exact (install_and_uninstall_guards ⟨[], []⟩ sampleInstalled ⟨1⟩).2.2.1 rfl
  · exact (install_and_uninstall_guards ⟨[sampleModelRow], []⟩ sampleInstalled ⟨1⟩).2.2.2 rfl

/-- C6: `delete_model` fails with `ModelHasInstalledInstances` when an
installation record references the id, leaving the state (and so the model
row) unchanged; with no installation record and the model present, the same
call succeeds and removes exactly the rows with that id. -/
theorem delete_model_installed_guard (s : DbState) (id : Uuid) :
    ((∃ im, s.getInstalledByModelId id = some im) →
      ModelsService.delete_model s id
        = (.error (.ModelHasInstalledInstances id), s))
    ∧ (s.getInstalledByModelId id = none →
      (∃ m, s.getModelById id = some m) →
      ModelsService.delete_model s id
        = (.ok (), { s with models := s.models.filter (fun r => !(r.id == id)) })) := by
  refine ⟨?_, ?_⟩
  · rintro ⟨im, him⟩
    unfold ModelsService.delete_model
    rw [him]
  · rintro hnone ⟨m, hm⟩
    unfold ModelsService.delete_model
    rw [hnone, hm]
    rfl

/-- C6 witness: deleting the sample model fails while its installation
record exists and succeeds once the record is gone. -/
theorem delete_model_installed_guard_witness :
    ModelsService.delete_model
        ⟨[sampleModelRow], [installedTableOfBasic sampleInstalled]⟩ ⟨1⟩
      = (.error (.ModelHasInstalledInstances ⟨1⟩),
         ⟨[sampleModelRow], [installedTableOfBasic sampleInstalled]⟩)
    ∧ ModelsService.delete_model ⟨[sampleModelRow], []⟩ ⟨1⟩ = (.ok (), ⟨[], []⟩) := by
  refine ⟨?_, ?_⟩
  · exact (delete_model_installed_guard
        ⟨[sampleModelRow], [installedTableOfBasic sampleInstalled]⟩ ⟨1⟩).1
      ⟨installedTableOfBasic sampleInstalled, rfl⟩
  · have h := (delete_model_installed_guard ⟨[sampleModelRow], []⟩ ⟨1⟩).2 rfl
      ⟨sampleModelRow, rfl⟩
    rw [h]
    rfl

/-- Deserializing the serialization of a string list gives it back,
order-preserved. -/
theorem decodeStringList_encodeStringList (l : List String) :
    decodeStringList (encodeStringList l) = .ok l := by
  induction l with
  | nil => rfl
  | cons s rest ih =>
    simp only [encodeStringList, decodeStringList, List.map_cons, List.foldr_cons] at ih ⊢
    rw [ih]
    rfl

/-- `assocInsert` appends when the key is fresh. -/
theorem assocInsert_append (acc : List (String × Json)) (kv : String × Json)
    (h : ∀ p ∈ acc, p.1 ≠ kv.1) : assocInsert acc kv = acc ++ [kv] := by
  induction acc with
  | nil => rfl
  | cons hd tl ih =>
    obtain ⟨k, v⟩ := hd
    unfold assocInsert
    rw [if_neg (h (k, v) (List.mem_cons_self _ _))]
    rw [ih (fun p hp => h p (List.mem_cons_of_mem _ hp))]
    rfl

/-- Folding `assocInsert` over entries with pairwise-distinct keys, all
fresh for the accumulator, appends them in order. -/
theorem foldl_assocInsert (kvs : List (String × Json)) :
    ∀ acc : List (String × Json),
      (kvs.map Prod.fst).Nodup →
      (∀ p ∈ acc, ∀ q ∈ kvs, p.1 ≠ q.1) →
      kvs.foldl assocInsert acc = acc ++ kvs := by
  induction kvs with
  | nil => intro acc _ _; simp
  | cons kv rest ih =>
    intro acc hnodup hdisj
    rw [List.foldl_cons,
      assocInsert_append acc kv (fun p hp => hdisj p hp kv (List.mem_cons_self _ _))]
    rw [List.map_cons, List.nodup_cons] at hnodup
    rw [ih (acc ++ [kv]) hnodup.2 ?_]
    · simp
    · intro p hp q hq
      rcases List.mem_append.1 hp with hpa | hpk
      · exact hdisj p hpa q (List.mem_cons_of_mem _ hq)
      · have : p = kv := by simpa using hpk
        subst this
        intro hcontra
        exact hnodup.1 (hcontra ▸ List.mem_map_of_mem Prod.fst hq)

/-- Deserializing the serialization of a config map with pairwise-distinct
keys gives back exactly the same entries. -/
theorem decodeConfig_encodeConfig (m : List (String × Json))
    (h : (m.map Prod.fst).Nodup) : decodeConfig (encodeConfig m) = .ok m := by
  simp only [decodeConfig, encodeConfig]
  rw [foldl_assocInsert m [] h (by intro p hp; simp at hp)]
  rfl

/-- Parsing the display form of a model type gives it back. -/
theorem modelType_fromStr_toStr (v : BasicModelType) :
    BasicModelType.fromStr v.toStr = .ok v := by
  cases v <;> rfl

/-- Parsing the display form of a model status gives it back. -/
theorem modelStatus_fromStr_toStr (v : BasicModelStatus) :
    BasicModelStatus.fromStr v.toStr = .ok v := by
  cases v <;> rfl

/-- Parsing the display form of a size category gives it back. -/
theorem parseSizeCategory_toStr (v : BasicSizeCategory) :
    parseSizeCategory v.toStr = .ok v := by
  cases v <;> rfl

/-- `i64 as u64` inverts `u64 as i64` on the `u64` range. -/
theorem i64AsU64_u64AsI64 (n : Nat) (h : n < 2 ^ 64) :
    i64AsU64 (u64AsI64 n) = n := by
  unfold i64AsU64 u64AsI64 wrapI64
  omega

/-- The well-formedness of a domain model: `u64` fields are in range and
the config map has pairwise-distinct keys, as a Rust `HashMap` guarantees. -/
def BasicModel.wf (m : BasicModel) : Prop :=
  m.file_size < 2 ^ 64 ∧ m.download_count < 2 ^ 64 ∧ (m.config.map Prod.fst).Nodup

/-- C1: for every well-formed domain model, Domain→Row (`TryFrom<BasicModel>
for ModelsTable`) followed by Row→Domain (`TryFrom<ModelsTable> for
BasicModel`) reproduces the model exactly — every scalar field, and the
`tags`/`languages` lists and `config` map element-for-element in order. -/
theorem basic_model_roundtrip (m : BasicModel) (h : m.wf) :
    (basicModelToModelsTable m).bind modelsTableToBasicModel = .ok m := by
  obtain ⟨h1, h2, h3⟩ := h
  show modelsTableToBasicModel (modelsTableOfBasic m) = .ok m
  unfold modelsTableToBasicModel modelsTableOfBasic
  simp only [decodeStringList_encodeStringList, decodeConfig_encodeConfig _ h3,
    modelType_fromStr_toStr, parseSizeCategory_toStr, Except.mapError,
    i64AsU64_u64AsI64 _ h1, i64AsU64_u64AsI64 _ h2]
  rfl

/-- C1 witness: the round trip applied to the concrete sample model. -/
theorem basic_model_roundtrip_witness :
    sampleBasicModel.wf
    ∧ (basicModelToModelsTable sampleBasicModel).bind modelsTableToBasicModel
        = .ok sampleBasicModel := by
  have hwf : sampleBasicModel.wf := by
    refine ⟨by norm_num [sampleBasicModel], by norm_num [sampleBasicModel], ?_⟩
    simp [sampleBasicModel]
  exact ⟨hwf, basic_model_roundtrip sampleBasicModel hwf⟩

/-- `Except` bind on a success, for rewriting converter chains. -/
theorem exceptBind_ok {ε α β : Type} (a : α) (k : α → Except ε β) :
    (Except.ok a : Except ε α) >>= k = k a := rfl

/-- `Except` bind on a failure, for rewriting converter chains. -/
theorem exceptBind_err {ε α β : Type} (e : ε) (k : α → Except ε β) :
    (Except.error e : Except ε α) >>= k = .error e := rfl

/-- `mapError` leaves successes alone. -/
theorem exceptMapError_ok {ε ε' α : Type} (f : ε → ε') (a : α) :
    (Except.ok a : Except ε α).mapError f = .ok a := rfl

/-- `mapError` rewrites failures. -/
theorem exceptMapError_err {ε ε' α : Type} (f : ε → ε') (e : ε) :
    (Except.error e : Except ε α).mapError f = .error (f e) := rfl

/-- A string equal to no `BasicModelType` discriminant parses to the
invalid-enum error. -/
theorem modelType_fromStr_not_variant (s : String)
    (h : ∀ v : BasicModelType, s ≠ v.toStr) :
    BasicModelType.fromStr s = .error ("Invalid model type: " ++ s) := by
  unfold BasicModelType.fromStr
  split
  · exact absurd rfl (h .Chat)
  · exact absurd rfl (h .Code)
  · exact absurd rfl (h .Text)
  · exact absurd rfl (h .Embedding)
  · exact absurd rfl (h .Image)
  · exact absurd rfl (h .Audio)
  · exact absurd rfl (h .Video)
  · exact absurd rfl (h .Multimodal)
  · exact absurd rfl (h .Other)
  · rfl

/-- A string equal to no `BasicModelStatus` discriminant parses to the
invalid-enum error. -/
theorem modelStatus_fromStr_not_variant (s : String)
    (h : ∀ v : BasicModelStatus, s ≠ v.toStr) :
    BasicModelStatus.fromStr s = .error ("Invalid model status: " ++ s) := by
  unfold BasicModelStatus.fromStr
  split
  · exact absurd rfl (h .Running)
  · exact absurd rfl (h .Starting)
  · exact absurd rfl (h .Stopping)
  · exact absurd rfl (h .Stopped)
  · exact absurd rfl (h .Error)
  · rfl

/-- A string equal to no `BasicSizeCategory` discriminant parses to the
invalid-enum error. -/
theorem parseSizeCategory_not_variant (s : String)
    (h : ∀ v : BasicSizeCategory, s ≠ v.toStr) :
    parseSizeCategory s = .error ("Invalid size category: " ++ s) := by
  unfold parseSizeCategory
  split
  · exact absurd rfl (h .Small)
  · exact absurd rfl (h .Medium)
  · exact absurd rfl (h .Large)
  · exact absurd rfl (h .XLarge)
  · rfl

/-- C3: when a stored enum text column (`model_type`, `size_category`, or
the installed-model `status`) matches no enum variant, the Row→Domain
conversion fails — it never yields a domain value, so it never substitutes
a default variant — and, when the columns read before it are well-formed,
the failure is exactly the invalid-enum-value error carrying the offending
string. -/
theorem invalid_enum_text_rejected (t : ModelsTable) (it : InstalledModelsTable) :
    ((∀ v : BasicModelType, t.model_type ≠ v.toStr) →
      ∀ b, modelsTableToBasicModel t ≠ .ok b)
    ∧ ((∀ v : BasicModelType, t.model_type ≠ v.toStr) →
      ∀ tl ll cl, decodeStringList t.tags = .ok tl →
      decodeStringList t.languages = .ok ll → decodeConfig t.config = .ok cl →
      modelsTableToBasicModel t
        = .error ("Invalid model type: Invalid model type: " ++ t.model_type))
    ∧ ((∀ v : BasicSizeCategory, t.size_category ≠ v.toStr) →
      ∀ b, modelsTableToBasicModel t ≠ .ok b)
    ∧ ((∀ v : BasicSizeCategory, t.size_category ≠ v.toStr) →
      ∀ tl ll cl mt, decodeStringList t.tags = .ok tl →
      decodeStringList t.languages = .ok ll → decodeConfig t.config = .ok cl →
      BasicModelType.fromStr t.model_type = .ok mt →
      modelsTableToBasicModel t
        = .error ("Invalid size category: " ++ t.size_category))
    ∧ ((∀ v : BasicModelStatus, it.status ≠ v.toStr) →
      ∀ r, db_to_basic_installed_model t it ≠ .ok r)
    ∧ ((∀ v : BasicModelStatus, it.status ≠ v.toStr) →
      ∀ b, modelsTableToBasicModel t = .ok b →
      db_to_basic_installed_model t it
        = .error ("Invalid model status: Invalid model status: " ++ it.status)) := by
  have hb : (∀ v : BasicModelType, t.model_type ≠ v.toStr) →
      ∀ tl ll cl, decodeStringList t.tags = .ok tl →
      decodeStringList t.languages = .ok ll → decodeConfig t.config = .ok cl →
      modelsTableToBasicModel t
        = .error ("Invalid model type: Invalid model type: " ++ t.model_type) := by
    intro h tl ll cl htags hlang hconf
    unfold modelsTableToBasicModel
    rw [htags, hlang, hconf, modelType_fromStr_not_variant t.model_type h]
    rfl
  have ha : (∀ v : BasicModelType, t.model_type ≠ v.toStr) →
      ∀ b, modelsTableToBasicModel t ≠ .ok b := by
    intro h b hok
    cases htags : decodeStringList t.tags with
    | error e =>
      unfold modelsTableToBasicModel at hok
      rw [htags] at hok
      simp [exceptMapError_err, exceptBind_err] at hok
    | ok tl =>
      cases hlang : decodeStringList t.languages with
      | error e =>
        unfold modelsTableToBasicModel at hok
        rw [htags, hlang] at hok
        simp [exceptMapError_err, exceptMapError_ok, exceptBind_err, exceptBind_ok] at hok
      | ok ll =>
        cases hconf : decodeConfig t.config with
        | error e =>
          unfold modelsTableToBasicModel at hok
          rw [htags, hlang, hconf] at hok
          simp [exceptMapError_err, exceptMapError_ok, exceptBind_err, exceptBind_ok] at hok
        | ok cl =>
          rw [hb h tl ll cl htags hlang hconf] at hok
          exact Except.noConfusion hok
  have hd : (∀ v : BasicSizeCategory, t.size_category ≠ v.toStr) →
      ∀ tl ll cl mt, decodeStringList t.tags = .ok tl →
      decodeStringList t.languages = .ok ll → decodeConfig t.config = .ok cl →
      BasicModelType.fromStr t.model_type = .ok mt →
      modelsTableToBasicModel t
        = .error ("Invalid size category: " ++ t.size_category) := by
    intro h tl ll cl mt htags hlang hconf hmt
    unfold modelsTableToBasicModel
    rw [htags, hlang, hconf, hmt, parseSizeCategory_not_variant t.size_category h]
    rfl
  have hc : (∀ v : BasicSizeCategory, t.size_category ≠ v.toStr) →
      ∀ b, modelsTableToBasicModel t ≠ .ok b := by
    intro h b hok
    cases htags : decodeStringList t.tags with
    | error e =>
      unfold modelsTableToBasicModel at hok
      rw [htags] at hok
      simp [exceptMapError_err, exceptBind_err] at hok
    | ok tl =>
      cases hlang : decodeStringList t.languages with
      | error e =>
        unfold modelsTableToBasicModel at hok
        rw [htags, hlang] at hok
        simp [exceptMapError_err, exceptMapError_ok, exceptBind_err, exceptBind_ok] at hok
      | ok ll =>
        cases hconf : decodeConfig t.config with
        | error e =>
          unfold modelsTableToBasicModel at hok
          rw [htags, hlang, hconf] at hok
          simp [exceptMapError_err, exceptMapError_ok, exceptBind_err, exceptBind_ok] at hok
        | ok cl =>
          cases hmt : BasicModelType.fromStr t.model_type with
          | error e =>
            unfold modelsTableToBasicModel at hok
            rw [htags, hlang, hconf, hmt] at hok
            simp [exceptMapError_err, exceptMapError_ok, exceptBind_err, exceptBind_ok] at hok
          | ok mt =>
            rw [hd h tl ll cl mt htags hlang hconf hmt] at hok
            exact Except.noConfusion hok
  have hf : (∀ v : BasicModelStatus, it.status ≠ v.toStr) →
      ∀ b, modelsTableToBasicModel t = .ok b →
      db_to_basic_installed_model t it
        = .error ("Invalid model status: Invalid model status: " ++ it.status) := by
    intro h b hmodel
    unfold db_to_basic_installed_model
    rw [hmodel, modelStatus_fromStr_not_variant it.status h]
    rfl
  have he : (∀ v : BasicModelStatus, it.status ≠ v.toStr) →
      ∀ r, db_to_basic_installed_model t it ≠ .ok r := by
    intro h r hok
    cases hmodel : modelsTableToBasicModel t with
    | error e =>
      unfold db_to_basic_installed_model at hok
      rw [hmodel] at hok
      simp [exceptBind_err] at hok
    | ok b =>
      rw [hf h b hmodel] at hok
      exact Except.noConfusion hok
  exact ⟨ha, hb, hc, hd, he, hf⟩

/-- The sample row with an unrecognized `model_type` text. -/
def badTypeRow : ModelsTable := { sampleModelRow with model_type := "Telepathy" }

/-- The sample row with an unrecognized `size_category` text. -/
def badSizeRow : ModelsTable := { sampleModelRow with size_category := "Gigantic" }

/-- A stored installation record with an unrecognized `status` text. -/
def badStatusInstalled : InstalledModelsTable :=
  { installedTableOfBasic sampleInstalled with status := "Zombie" }

/-- C3 witness: the rejection theorem applied to concrete rows whose enum
text columns hold strings matching no variant. -/
theorem invalid_enum_text_rejected_witness :
    modelsTableToBasicModel badTypeRow
      = .error "Invalid model type: Invalid model type: Telepathy"
    ∧ modelsTableToBasicModel badSizeRow
      = .error "Invalid size category: Gigantic"
    ∧ db_to_basic_installed_model sampleModelRow badStatusInstalled
      = .error "Invalid model status: Invalid model status: Zombie" := by
  refine ⟨?_, ?_, ?_⟩
  · exact (invalid_enum_text_rejected badTypeRow badStatusInstalled).2.1
      (fun v => by cases v <;> decide) ["ai", "chat"] ["en", "zh"]
      [("temperature", Json.num "0.7")] rfl rfl rfl
  · exact (invalid_enum_text_rejected badSizeRow badStatusInstalled).2.2.2.1
      (fun v => by cases v <;> decide) ["ai", "chat"] ["en", "zh"]
      [("temperature", Json.num "0.7")] .Chat rfl rfl rfl rfl
  · exact (invalid_enum_text_rejected sampleModelRow badStatusInstalled).2.2.2.2.2
      (fun v => by cases v <;> decide) sampleBasicModel rfl

/-- A read row whose textual `rating` column stores the non-empty,
non-numeric text "abc", every other column well-formed. -/
def rowWithTextRating : SqliteRow :=
  { id := some ⟨1⟩
    name := some "m"
    display_name := some "M"
    description := some "d"
    version := some "1"
    model_type := some "Chat"
    size_category := some "Small"
    file_size := some 100
    provider := some "p"
    license := some ""
    tags := some (.arr [])
    languages := some (.arr [])
    file_path := some ""
    checksum := some ""
    download_url := some ""
    config := some (.obj [])
    rating := some "abc"
    download_count := some 0
    is_official := some "false"
    created_at := some 0
    updated_at := some 0 }

/-- C7 counterexample: the stored `rating` text "abc" is non-empty, yet
`row_to_models_table` returns `rating = None` for it (the parse
`s.parse::<f32>().ok()` fails), so a non-empty stored value is not always
returned as `Some` of a value. -/
theorem optional_text_columns_counterexample :
    rowWithTextRating.rating = some "abc"
    ∧ ("abc" : String) ≠ ""
    ∧ (row_to_models_table rowWithTextRating).map (fun m => m.rating) = .ok none := by
  refine ⟨rfl, by decide, rfl⟩

/-- C7 (amended): when reading a model row, each optional text column
(`description`, `license`, `file_path`, `checksum`, `download_url`) whose
stored value is the empty string is returned as `None` and whose non-empty
stored value is returned as `Some` of that value; the textual `rating` is
returned as `None` when empty, as `Some` of the parsed value when the
non-empty text parses as an `f32`, and as `None` when the non-empty text
does not parse. -/
theorem optional_text_columns_normalized (row : SqliteRow) (m : ModelsTable)
    (h : row_to_models_table row = .ok m) :
    (row.description = some "" → m.description = none)
    ∧ (∀ s, row.description = some s → s ≠ "" → m.description = some s)
    ∧ (row.license = some "" → m.license = none)
    ∧ (∀ s, row.license = some s → s ≠ "" → m.license = some s)
    ∧ (row.file_path = some "" → m.file_path = none)
    ∧ (∀ s, row.file_path = some s → s ≠ "" → m.file_path = some s)
    ∧ (row.checksum = some "" → m.checksum = none)
    ∧ (∀ s, row.checksum = some s → s ≠ "" → m.checksum = some s)
    ∧ (row.download_url = some "" → m.download_url = none)
    ∧ (∀ s, row.download_url = some s → s ≠ "" → m.download_url = some s)
    ∧ (row.rating = some "" → m.rating = none)
    ∧ (∀ s, row.rating = some s → s ≠ "" → f32ParseOk s = true → m.rating = some ⟨s⟩)
    ∧ (∀ s, row.rating = some s → f32ParseOk s = false → m.rating = none) := by
  cases hid : row.id with
  | none =>
    unfold row_to_models_table at h
    rw [hid] at h
    simp [exceptBind_err] at h
  | some idv =>
  cases hfs : row.file_size with
  | none =>
    unfold row_to_models_table at h
    rw [hid, hfs] at h
    simp [exceptBind_err, exceptBind_ok] at h
  | some fsv =>
  cases hca : row.created_at with
  | none =>
    unfold row_to_models_table at h
    rw [hid, hfs, hca] at h
    simp [exceptBind_err, exceptBind_ok] at h
  | some cav =>
  cases hua : row.updated_at with
  | none =>
    unfold row_to_models_table at h
    rw [hid, hfs, hca, hua] at h
    simp [exceptBind_err, exceptBind_ok] at h
  | some uav =>
  unfold row_to_models_table at h
  rw [hid, hfs, hca, hua] at h
  simp only [exceptBind_ok, Except.ok.injEq] at h
  subst h
  refine ⟨?_, ?_, ?_, ?_, ?_, ?_, ?_, ?_, ?_, ?_, ?_, ?_, ?_⟩
  · intro hdesc; simp [hdesc, String.isEmpty_iff]
  · intro s hdesc hne
    simp only [hdesc, Option.some_bind]
    rw [if_neg]
    simp only [String.isEmpty_iff]
    exact hne
  · intro hlic; simp [hlic, String.isEmpty_iff]
  · intro s hlic hne
    simp only [hlic, Option.some_bind]
    rw [if_neg]
    simp only [String.isEmpty_iff]
    exact hne
  · intro hfp; simp [hfp, String.isEmpty_iff]
  · intro s hfp hne
    simp only [hfp, Option.some_bind]
    rw [if_neg]
    simp only [String.isEmpty_iff]
    exact hne
  · intro hck; simp [hck, String.isEmpty_iff]
  · intro s hck hne
    simp only [hck, Option.some_bind]
    rw [if_neg]
    simp only [String.isEmpty_iff]
    exact hne
  · intro hdu; simp [hdu, String.isEmpty_iff]
  · intro s hdu hne
    simp only [hdu, Option.some_bind]
    rw [if_neg]
    simp only [String.isEmpty_iff]
    exact hne
  · intro hr; simp [hr, String.isEmpty_iff]
  · intro s hr hne hok
    simp only [hr, Option.some_bind]
    rw [if_neg]
    · unfold parseF32
      rw [if_pos hok]
    · simp only [String.isEmpty_iff]
      exact hne
  · intro s hr hbad
    simp only [hr, Option.some_bind]
    by_cases hemp : s.isEmpty = true
    · rw [if_pos hemp]
    · rw [if_neg hemp]
      unfold parseF32
      rw [if_neg]
      simp [hbad]

/-- The parsed result of `rowWithTextRating`. -/
def rowWithTextRatingParsed : ModelsTable :=
  { id := ⟨1⟩
    name := "m"
    display_name := "M"
    description := some "d"
    version := "1"
    model_type := "Chat"
    size_category := "Small"
    file_size := 100
    provider := "p"
    license := none
    tags := .arr []
    languages := .arr []
    file_path := none
    checksum := none
    download_url := none
    config := .obj []
    rating := none
    download_count := 0
    is_official := false
    created_at := 0
    updated_at := 0 }

/-- C7 witness: the normalization theorem applied to the concrete row —
the non-empty description survives, the empty-string license reads back as
`None`, and the unparseable rating text reads back as `None`. -/
theorem optional_text_columns_normalized_witness :
    rowWithTextRatingParsed.description = some "d"
    ∧ rowWithTextRatingParsed.license = none
    ∧ rowWithTextRatingParsed.rating = none := by
  have h := optional_text_columns_normalized rowWithTextRating rowWithTextRatingParsed rfl
  exact ⟨h.2.1 "d" rfl (by decide), h.2.2.1 rfl,
    h.2.2.2.2.2.2.2.2.2.2.2.2 "abc" rfl (by decide)⟩

/-- Modelled from the spec's words (§4.3 "substring match across
name/display_name/description"): `q` occurs in `s` as a literal contiguous
substring.  This is the claim's notion of matching, stated independently of
the source's `LIKE` pattern for comparison. -/
def containsSub (q : List Char) : List Char → Bool
  | [] => q.isPrefixOf []
  | c :: rest => q.isPrefixOf (c :: rest) || containsSub q rest

/-- Modelled from the spec's words: the query is a literal substring of the
stored text (case-sensitive). -/
def strContainsSub (hay needle : String) : Bool :=
  containsSub needle.data hay.data

/-- Modelled from the spec's words together with SQLite's default
collation: the query is a substring of the stored text up to ASCII case. -/
def ciContains (hay needle : String) : Bool :=
  containsSub (needle.data.map Char.toLower) (hay.data.map Char.toLower)

/-- A `%` pattern alone matches every text. -/
theorem likeMatch_percent_end (ts : List Char) : likeMatch ['%'] ts = true := by
  induction ts with
  | nil => rfl
  | cons t ts' ih => simp_all [likeMatch, starScan]

/-- A wildcard-free pattern followed by `%` matches exactly the texts it
case-insensitively prefixes. -/
theorem likeMatch_lit_prefix (qs : List Char) (h : ∀ c ∈ qs, c ≠ '%' ∧ c ≠ '_') :
    ∀ ts : List Char,
      likeMatch (qs ++ ['%']) ts
        = (qs.map Char.toLower).isPrefixOf (ts.map Char.toLower) := by
  induction qs with
  | nil =>
    intro ts
    rw [List.nil_append, likeMatch_percent_end]
    cases ts <;> rfl
  | cons q qs' ih =>
    intro ts
    have hq := h q (List.mem_cons_self _ _)
    cases ts with
    | nil =>
      simp [List.cons_append, likeMatch, if_neg hq.1, List.isPrefixOf]
    | cons t ts' =>
      simp only [List.cons_append, likeMatch, if_neg hq.1, if_neg hq.2,
        List.map_cons, List.isPrefixOf, List.append_eq]
      rw [ih (fun c hc => h c (List.mem_cons_of_mem _ hc)) ts']

/-- `%q%` with a wildcard-free `q` matches exactly the texts containing `q`
as a case-insensitive substring. -/
theorem likeMatch_contains (qs : List Char) (h : ∀ c ∈ qs, c ≠ '%' ∧ c ≠ '_') :
    ∀ ts : List Char,
      likeMatch ('%' :: (qs ++ ['%'])) ts
        = containsSub (qs.map Char.toLower) (ts.map Char.toLower) := by
  intro ts
  induction ts with
  | nil =>
    show starScan (likeMatch (qs ++ ['%'])) [] = _
    simp [starScan, likeMatch_lit_prefix qs h [], containsSub]
  | cons t ts' ih =>
    show starScan (likeMatch (qs ++ ['%'])) (t :: ts') = _
    have ih' : starScan (likeMatch (qs ++ ['%'])) ts'
        = containsSub (qs.map Char.toLower) (ts'.map Char.toLower) := ih
    simp [starScan, likeMatch_lit_prefix qs h (t :: ts'), ih', containsSub]

/-- On a wildcard-free query, the repository's `LIKE '%query%'` test is the
case-insensitive substring test. -/
theorem sqlLike_eq_ciContains (q t : String) (h : ∀ c ∈ q.data, c ≠ '%' ∧ c ≠ '_') :
    sqlLike ("%" ++ q ++ "%") t = ciContains t q := by
  unfold sqlLike ciContains
  have hdata : ("%" ++ q ++ "%").data = '%' :: (q.data ++ ['%']) := by
    rw [String.data_append, String.data_append]
    rfl
  rw [hdata, likeMatch_contains q.data h t.data]

instance : IsTotal ModelsTable createdDesc :=
  ⟨fun a b => le_total b.created_at a.created_at⟩

instance : IsTrans ModelsTable createdDesc :=
  ⟨fun _ _ _ hab hbc => le_trans hbc hab⟩

/-- C8 (amended): `search_models` interprets the query through SQL `LIKE`,
so `%` and `_` in the query act as wildcards and matching is
ASCII-case-insensitive; for queries free of wildcard characters it returns
exactly the models whose `name`, `display_name`, or `description` contains
the query as a case-insensitive substring, ordered by creation time
descending, capped at the given limit, 50 when none is supplied. -/
theorem search_models_substring (s : DbState) (q : String) (lim : Option Nat)
    (h : ∀ c ∈ q.data, c ≠ '%' ∧ c ≠ '_') :
    ModelsRepository.search_models s q lim
      = (List.insertionSort createdDesc (s.models.filter (fun r =>
          ciContains r.name q || ciContains r.display_name q
            || ciContains (r.description.getD "") q))).take (lim.getD 50)
    ∧ List.Sorted createdDesc (ModelsRepository.search_models s q lim)
    ∧ (ModelsRepository.search_models s q lim).length ≤ lim.getD 50
    ∧ ∀ r ∈ ModelsRepository.search_models s q lim,
        (ciContains r.name q || ciContains r.display_name q
          || ciContains (r.description.getD "") q) = true := by
  have hfilter : s.models.filter (fun r =>
        sqlLike ("%" ++ q ++ "%") r.name || sqlLike ("%" ++ q ++ "%") r.display_name
          || sqlLike ("%" ++ q ++ "%") (r.description.getD ""))
      = s.models.filter (fun r =>
          ciContains r.name q || ciContains r.display_name q
            || ciContains (r.description.getD "") q) := by
    apply List.filter_congr
    intro r _
    rw [sqlLike_eq_ciContains q r.name h, sqlLike_eq_ciContains q r.display_name h,
      sqlLike_eq_ciContains q (r.description.getD "") h]
  have heq : ModelsRepository.search_models s q lim
      = (List.insertionSort createdDesc (s.models.filter (fun r =>
          ciContains r.name q || ciContains r.display_name q
            || ciContains (r.description.getD "") q))).take (lim.getD 50) := by
    show (List.insertionSort createdDesc (s.models.filter (fun r =>
        sqlLike ("%" ++ q ++ "%") r.name || sqlLike ("%" ++ q ++ "%") r.display_name
          || sqlLike ("%" ++ q ++ "%") (r.description.getD "")))).take (lim.getD 50) = _
    rw [hfilter]
  refine ⟨heq, ?_, ?_, ?_⟩
  · rw [heq]
    exact List.Pairwise.sublist (List.take_sublist _ _)
      (List.sorted_insertionSort createdDesc _)
  · rw [heq]
    exact List.length_take_le _ _
  · intro r hr
    rw [heq] at hr
    have h1 : r ∈ List.insertionSort createdDesc (s.models.filter (fun r =>
        ciContains r.name q || ciContains r.display_name q
          || ciContains (r.description.getD "") q)) :=
      List.take_subset _ _ hr
    have h2 := (List.perm_insertionSort createdDesc _).subset h1
    have h3 := (List.mem_filter.mp h2).2
    simpa using h3

/-- A stored model row named "abc". -/
def rowAbc : ModelsTable :=
  { sampleModelRow with name := "abc", display_name := "ABC", description := none }

/-- C8 counterexample: the query "a_c" is not a substring of any searched
column of the only stored row, yet `search_models` returns that row — the
underscore acts as a single-character `LIKE` wildcard, so matching is not
plain substring containment. -/
theorem search_models_wildcard_counterexample :
    ModelsRepository.search_models ⟨[rowAbc], []⟩ "a_c" none = [rowAbc]
    ∧ strContainsSub rowAbc.name "a_c" = false
    ∧ strContainsSub rowAbc.display_name "a_c" = false
    ∧ strContainsSub (rowAbc.description.getD "") "a_c" = false :=
  ⟨rfl, by decide, by decide, by decide⟩

/-- C8 witness: the amended search theorem applied to the one-row state and
the wildcard-free query "b". -/
theorem search_models_substring_witness :
    ModelsRepository.search_models ⟨[rowAbc], []⟩ "b" none
      = (List.insertionSort createdDesc ([rowAbc].filter (fun r =>
          ciContains r.name "b" || ciContains r.display_name "b"
            || ciContains (r.description.getD "") "b"))).take 50
    ∧ (ModelsRepository.search_models ⟨[rowAbc], []⟩ "b" none).length ≤ 50 := by
  have h := search_models_substring ⟨[rowAbc], []⟩ "b" none (by decide)
  exact ⟨h.1, h.2.2.1⟩
